import Mathlib

/-!
Verification of the netcap flow-reassembly and profiling engine against its
natural-language specification.  The Go sources are shallowly embedded as
executable Lean definitions: pure control flow becomes Lean functions, global
mutable state becomes explicit state passing, Go maps become association
lists, and calls into external libraries (resolvers, DPI, JA3, gopacket)
become inputs that carry the external call's result.
-/

namespace Netcap

/-! ## Record writer (`writer.go`)

`NewWriter` is embedded as a function from its arguments to either a
constructed layer description or the panic message.  The layer description
records which wrapper objects are allocated (file with its suffix, buffered
layer with its size, gzip layer, delimited writer, channel writer, CSV
writer); the byte-level wiring between the layers is not needed by any claim
and is omitted.  `DefaultBufferSize` is a package constant whose definition
is outside the provided sources, so it is passed in as a parameter. -/

structure WriterLayers where
  fileSuffix : Option String
  bWriterSize : Option Int
  hasGWriter : Bool
  hasDWriter : Bool
  hasCWriter : Bool
  hasCSVWriter : Bool
deriving Repr, DecidableEq

/-- Embedding of `NewWriter` (writer.go lines 65-169).  `Except.error`
models the `panic` call; every other path returns the allocated layers. -/
def NewWriter (defaultBufferSize : Int) (buffer compress csv writeChan : Bool)
    (memBufferSize : Int) : Except String WriterLayers :=
  let memBufferSize := if memBufferSize ≤ 0 then defaultBufferSize else memBufferSize
  if csv then
    let suffix := if compress then ".csv.gz" else ".csv"
    if buffer then
      Except.ok { fileSuffix := some suffix, bWriterSize := some memBufferSize,
                  hasGWriter := compress, hasDWriter := false,
                  hasCWriter := false, hasCSVWriter := true }
    else
      Except.ok { fileSuffix := some suffix, bWriterSize := none,
                  hasGWriter := compress, hasDWriter := false,
                  hasCWriter := false, hasCSVWriter := true }
  else
    if writeChan && buffer || writeChan && compress then
      Except.error "buffering or compression cannot be activated when running using writeChan"
    else
      let fileSuffix := if writeChan then none
        else some (if compress then ".ncap.gz" else ".ncap")
      if buffer then
        Except.ok { fileSuffix := fileSuffix, bWriterSize := some defaultBufferSize,
                    hasGWriter := compress, hasDWriter := true,
                    hasCWriter := writeChan, hasCSVWriter := false }
      else
        Except.ok { fileSuffix := fileSuffix, bWriterSize := none,
                    hasGWriter := compress, hasDWriter := true,
                    hasCWriter := writeChan, hasCSVWriter := false }

/-! ### Writer close (`Writer.Close`, `CloseGzipWriters`, `FlushWriters`)

The close path is embedded over an explicit state: whether the gzip layer is
closed, how many footer bytes it still owes downstream, how many bytes sit in
the buffered layer, and whether the file is closed.  The gzip layer follows
the documented contract of the gzip writer it wraps: `Flush` and `Close` on
an already-closed writer are error-free no-ops. -/

structure WriterCloseState where
  compress : Bool
  buffer : Bool
  gzipClosed : Bool
  gzipFooterLen : Nat
  bufPending : Nat
  fileClosed : Bool
  fileBytes : Nat
  name : String
deriving Repr, DecidableEq

/-- Embedding of `CloseGzipWriters` applied to the writer's gzip layer:
flush-then-close the gzip writer, emitting its pending footer bytes into the
downstream layer (the buffered layer when buffering is on, the file
otherwise).  A write into an already-closed file is the error path (the Go
code panics there). -/
def closeGzipLayer (w : WriterCloseState) : Except String WriterCloseState :=
  if w.gzipClosed then Except.ok w
  else
    let w := { w with gzipClosed := true }
    if w.buffer then
      Except.ok { w with bufPending := w.bufPending + w.gzipFooterLen, gzipFooterLen := 0 }
    else if w.fileClosed then
      Except.error "write on closed file"
    else
      Except.ok { w with fileBytes := w.fileBytes + w.gzipFooterLen, gzipFooterLen := 0 }

/-- Embedding of `FlushWriters` applied to the buffered layer: push the
pending bytes into the file.  An empty buffer is a no-op; flushing buffered
bytes into a closed file is the error path (the Go code panics there). -/
def flushBufferedLayer (w : WriterCloseState) : Except String WriterCloseState :=
  if w.bufPending = 0 then Except.ok w
  else if w.fileClosed then Except.error "flush on closed file"
  else Except.ok { w with fileBytes := w.fileBytes + w.bufPending, bufPending := 0 }

/-- Modelled from the spec: `CloseFile` is not among the provided sources
(only its caller `Writer.Close` is).  Per the close contract of the spec
("On close: ... close file, report final size") it closes the file and
reports the audit record file's name and final size. -/
def closeFile (w : WriterCloseState) : (String × Nat) × WriterCloseState :=
  ((w.name, w.fileBytes), { w with fileClosed := true })

/-- Embedding of `Writer.Close` (writer.go lines 264-274): close the gzip
layer when compression is on, flush the buffered layer when buffering is on,
then close the file and report `(name, size)`. -/
def writerClose (w : WriterCloseState) : Except String ((String × Nat) × WriterCloseState) :=
  match (if w.compress then closeGzipLayer w else Except.ok w) with
  | Except.error e => Except.error e
  | Except.ok w =>
      match (if w.buffer then flushBufferedLayer w else Except.ok w) with
      | Except.error e => Except.error e
      | Except.ok w => Except.ok (closeFile w)

/-! ## IP profile registry (`getIPProfile`)

Go maps keyed by strings become association lists with first-match lookup
and in-place replacement; the profile registry itself is such a map from
source IP to profile.  Calls into external packages (geolocation, DNS, JA3
description lookup) are supplied through a `Resolvers` record; the per-packet
results of the external packet dissectors (transport layer, TLS client
hello, JA3 digest, DPI) arrive pre-computed inside `PacketInfo`. -/

def lookupA {α : Type} : List (String × α) → String → Option α
  | [], _ => none
  | (k2, v) :: rest, k => if k2 = k then some v else lookupA rest k

def insertA {α : Type} : List (String × α) → String → α → List (String × α)
  | [], k, v => [(k, v)]
  | (k2, v2) :: rest, k, v =>
      if k2 = k then (k2, v) :: rest else (k2, v2) :: insertA rest k v

/-- `types.Port`: per-port byte and packet counters. -/
structure Port where
  numTotal : Nat
  numTCP : Nat
  numUDP : Nat
deriving Repr, DecidableEq

/-- `types.Protocol` as produced by `dpi.NewProto`: the DPI packet counter
together with the category carried along from the DPI result. -/
structure Protocol where
  packets : Nat
  category : String
deriving Repr, DecidableEq

/-- `types.IPProfile`. -/
structure IPProfile where
  addr : String
  numPackets : Nat
  bytes : Nat
  timestampFirst : Nat
  timestampLast : Nat
  srcPorts : List (String × Port)
  dstPorts : List (String × Port)
  snis : List (String × Nat)
  ja3 : List (String × String)
  protocols : List (String × Protocol)
  dnsNames : List String
  geolocation : String
deriving Repr, DecidableEq

inductive TransportKind
  | tcp
  | udp
  | other
deriving Repr, DecidableEq

/-- The packet's transport layer as seen through gopacket: the stringified
source and destination ports of the transport flow and the layer type. -/
structure TransportInfo where
  srcPort : String
  dstPort : String
  kind : TransportKind
deriving Repr, DecidableEq

/-- Per-packet inputs of `getIPProfile`: the packet's raw data length and
timestamp, plus the results of the external dissectors (`TransportLayer`,
`tlsx.GetClientHelloBasic` — `none` when no client hello parses, `some sni`
otherwise —, the JA3 digest after the ja3s fallback with `""` meaning no
digest, and the DPI results already converted by `dpi.NewProto`). -/
structure PacketInfo where
  dataLen : Nat
  timestamp : Nat
  transport : Option TransportInfo
  sni : Option String
  ja3Hash : String
  dpi : List (String × Protocol)
deriving Repr, DecidableEq

/-- Results of the resolver package, as functions of the looked-up key. -/
structure Resolvers where
  lookupJa3 : String → String
  lookupGeo : String → String
  lookupDNSLocal : String → String
  lookupDNSNames : String → List String
  localDNS : Bool

/-- The shared src-port/dst-port update of `getIPProfile`: bump the existing
port entry's counters, or install a fresh `types.Port` for the port key. -/
def portIncrement (dataLen : Nat) (kind : TransportKind)
    (m : List (String × Port)) (key : String) : List (String × Port) :=
  match lookupA m key with
  | some port =>
      let port := { port with numTotal := port.numTotal + dataLen }
      let port :=
        match kind with
        | TransportKind.tcp => { port with numTCP := port.numTCP + 1 }
        | TransportKind.udp => { port with numUDP := port.numUDP + 1 }
        | TransportKind.other => port
      insertA m key port
  | none =>
      let port : Port := { numTotal := dataLen, numTCP := 0, numUDP := 0 }
      let port :=
        match kind with
        | TransportKind.tcp => { port with numTCP := port.numTCP + 1 }
        | TransportKind.udp => { port with numUDP := port.numUDP + 1 }
        | TransportKind.other => port
      insertA m key port

/-- The DPI loop of the existing-profile branch: for each detected protocol
bump the stored packet counter, or install the freshly built protocol. -/
def applyDPI : List (String × Protocol) → IPProfile → IPProfile
  | [], ip => ip
  | pr :: rest, ip =>
      let ip :=
        match lookupA ip.protocols pr.1 with
        | some prot =>
            { ip with protocols :=
                insertA ip.protocols pr.1 { prot with packets := prot.packets + 1 } }
        | none => { ip with protocols := insertA ip.protocols pr.1 pr.2 }
      applyDPI rest ip

/-- The transport-layer section of the existing-profile branch: update both
port maps when the packet carries a transport layer. -/
def updatePorts (dataLen : Nat) (tl : Option TransportInfo) (ip : IPProfile) : IPProfile :=
  match tl with
  | some tl =>
      { ip with srcPorts := portIncrement dataLen tl.kind ip.srcPorts tl.srcPort,
                dstPorts := portIncrement dataLen tl.kind ip.dstPorts tl.dstPort }
  | none => ip

/-- The TLS section of the existing-profile branch: count a nonempty SNI
from a parsed client hello (a missing key reads as zero before the bump). -/
def updateSNI (sni : Option String) (ip : IPProfile) : IPProfile :=
  match sni with
  | some s =>
      if s ≠ "" then
        { ip with snis := insertA ip.snis s ((lookupA ip.snis s).getD 0 + 1) }
      else ip
  | none => ip

/-- The JA3 section of the existing-profile branch: install an unseen
nonempty digest with its looked-up description. -/
def updateJa3 (res : Resolvers) (hash : String) (ip : IPProfile) : IPProfile :=
  if hash ≠ "" then
    match lookupA ip.ja3 hash with
    | some _ => ip
    | none => { ip with ja3 := insertA ip.ja3 hash (res.lookupJa3 hash) }
  else ip

/-- The existing-profile branch of `getIPProfile` (part_003 lines 58-147):
bump packet/byte counters, set the last-seen timestamp, update both port
maps, count the SNI, install an unseen JA3 digest with its looked-up
description, and fold the DPI results into the protocol map. -/
def updateProfile (res : Resolvers) (i : PacketInfo) (ip : IPProfile) : IPProfile :=
  applyDPI i.dpi
    (updateJa3 res i.ja3Hash
      (updateSNI i.sni
        (updatePorts i.dataLen i.transport
          { ip with numPackets := ip.numPackets + 1,
                    timestampLast := i.timestamp,
                    bytes := ip.bytes + i.dataLen })))

/-- The new-profile branch of `getIPProfile` (part_003 lines 149-237). -/
def newProfile (res : Resolvers) (ipAddr : String) (i : PacketInfo) : IPProfile :=
  let mkPort : TransportKind → Port := fun kind =>
    let port : Port := { numTotal := i.dataLen, numTCP := 0, numUDP := 0 }
    match kind with
    | TransportKind.tcp => { port with numTCP := port.numTCP + 1 }
    | TransportKind.udp => { port with numUDP := port.numUDP + 1 }
    | TransportKind.other => port
  let srcPorts :=
    match i.transport with
    | some tl => [(tl.srcPort, mkPort tl.kind)]
    | none => []
  let dstPorts :=
    match i.transport with
    | some tl => [(tl.dstPort, mkPort tl.kind)]
    | none => []
  let ja3Map := if i.ja3Hash ≠ "" then [(i.ja3Hash, res.lookupJa3 i.ja3Hash)] else []
  let sniMap :=
    match i.sni with
    | some s => [(s, 1)]
    | none => []
  let protos := i.dpi.foldl (fun m pr => insertA m pr.1 pr.2) []
  let names :=
    if res.localDNS then
      let n := res.lookupDNSLocal ipAddr
      if n.length ≠ 0 then [n] else []
    else res.lookupDNSNames ipAddr
  { addr := ipAddr,
    numPackets := 1,
    bytes := i.dataLen,
    timestampFirst := i.timestamp,
    timestampLast := 0,
    srcPorts := srcPorts,
    dstPorts := dstPorts,
    snis := sniMap,
    ja3 := ja3Map,
    protocols := protos,
    dnsNames := names,
    geolocation := res.lookupGeo ipAddr }

/-- Embedding of `getIPProfile` (part_003 lines 52-238) over an explicit
registry state: an empty address returns `nil` and leaves the registry
alone; a known address updates its profile in place; an unknown address
installs a freshly built profile. -/
def getIPProfile (res : Resolvers) (reg : List (String × IPProfile))
    (ipAddr : String) (i : PacketInfo) :
    Option IPProfile × List (String × IPProfile) :=
  if ipAddr.length = 0 then (none, reg)
  else
    match lookupA reg ipAddr with
    | some p =>
        let p2 := updateProfile res i p
        (some p2, insertA reg ipAddr p2)
    | none =>
        let p := newProfile res ipAddr i
        (some p, insertA reg ipAddr p)

/-! ## TCP connection: segment acceptance (`tcpConnection.Accept`)

The FSM check, the option check and the checksum computation are calls into
the reassembly library and gopacket; their results enter as inputs (`fsmOk`,
`optOk`, and `csum` — `none` when `ComputeChecksum` errors, `some v` for a
computed value `v`).  The embedding returns the accept decision, the new
per-connection `fsmerr` flag, and the new global reject counters. -/

structure AcceptConfig where
  ignoreFSMerr : Bool
  noOptCheck : Bool
  checksum : Bool
deriving Repr, DecidableEq

structure RejectStats where
  rejectFsm : Nat
  rejectConnFsm : Nat
  rejectOpt : Nat
deriving Repr, DecidableEq

/-- Embedding of `tcpConnection.Accept` (part_004 lines 160-209). -/
def tcpAccept (cfg : AcceptConfig) (fsmerr : Bool) (stats : RejectStats)
    (fsmOk optOk : Bool) (csum : Option Nat) : Bool × Bool × RejectStats :=
  let fsmerrNew := if !fsmOk && !fsmerr then true else fsmerr
  let stats :=
    if !fsmOk then
      let s := { stats with rejectFsm := stats.rejectFsm + 1 }
      if !fsmerr then { s with rejectConnFsm := s.rejectConnFsm + 1 } else s
    else stats
  if !fsmOk && !cfg.ignoreFSMerr then
    (false, fsmerrNew, stats)
  else
    let stats :=
      if !optOk then { stats with rejectOpt := stats.rejectOpt + 1 } else stats
    if !optOk && !cfg.noOptCheck then
      (false, fsmerrNew, stats)
    else
      let ok :=
        if cfg.checksum then
          match csum with
          | none => false
          | some v => v == 0
        else true
      let stats :=
        if !ok then { stats with rejectOpt := stats.rejectOpt + 1 } else stats
      (ok, fsmerrNew, stats)

/-! ## TCP connection: scatter-gather delivery (`ReassembledSG`, `feedData`)

A connection's two direction readers are modelled by their data channels:
two queues of `StreamData` fragments.  The scatter-gather view enters as the
metadata `(skip, length, dir)` plus the bytes `Fetch` would return; the raw
byte copy that `feedData` performs is modelled by enqueuing a value equal to
those bytes (value semantics already give fresh ownership). -/

inductive TCPFlowDirection
  | clientToServer
  | serverToClient
deriving Repr, DecidableEq

/-- Assembler context: the capture timestamp it carries. -/
structure AsmContext where
  timestamp : Nat
deriving Repr, DecidableEq

/-- `StreamData`: one fragment, raw bytes plus context and direction tag. -/
structure StreamData where
  raw : List Nat
  ac : AsmContext
  dir : TCPFlowDirection
deriving Repr, DecidableEq

/-- The stream factory's protocol toggles consulted by `ReassembledSG`. -/
structure FactoryFlags where
  decodeSSH : Bool
  decodeHTTP : Bool
  decodePOP3 : Bool
deriving Repr, DecidableEq

/-- The connection state that `ReassembledSG` reads and writes: the decoder
selection flags and the two reader channels. -/
structure SGConn where
  isHTTP : Bool
  isHTTPS : Bool
  isPOP3 : Bool
  isSSH : Bool
  clientQueue : List StreamData
  serverQueue : List StreamData
deriving Repr, DecidableEq

/-- Embedding of `tcpConnection.feedData` (part_004 lines 250-275): copy the
bytes and enqueue them on the client channel for client-to-server data,
otherwise on the server channel, tagged with direction and context. -/
def feedData (t : SGConn) (dir : TCPFlowDirection) (data : List Nat)
    (ac : AsmContext) : SGConn :=
  let dataCpy := data
  match dir with
  | TCPFlowDirection.clientToServer =>
      { t with clientQueue := t.clientQueue ++ [⟨dataCpy, ac, dir⟩] }
  | TCPFlowDirection.serverToClient =>
      { t with serverQueue := t.serverQueue ++ [⟨dataCpy, ac, dir⟩] }

/-- The body of `ReassembledSG` after the skip gate: fetch the data, return
without delivery when the connection's protocol decoding is disabled or the
connection is HTTPS-marked, and otherwise feed nonempty data to the reader. -/
def processSGData (ff : FactoryFlags) (t : SGConn) (length : Nat)
    (viewData : List Nat) (ac : AsmContext) (dir : TCPFlowDirection) : SGConn :=
  let data := viewData
  if t.isSSH && !ff.decodeSSH then t
  else if t.isHTTP && !ff.decodeHTTP then t
  else if t.isPOP3 && !ff.decodePOP3 then t
  else if t.isHTTPS then t
  else if 0 < length then feedData t dir data ac
  else t

/-- Embedding of `tcpConnection.ReassembledSG` (part_004 lines 315-356),
minus the `updateStats` bookkeeping, which touches only the global counter
bundle and never the reader channels.  `skip == -1` with `AllowMissingInit`
passes the gate; any other nonzero skip aborts the delivery. -/
def reassembledSG (allowMissingInit : Bool) (ff : FactoryFlags) (t : SGConn)
    (skip : Int) (length : Nat) (viewData : List Nat) (ac : AsmContext)
    (dir : TCPFlowDirection) : SGConn :=
  if skip == -1 && allowMissingInit then
    processSGData ff t length viewData ac dir
  else if skip != 0 then
    t
  else
    processSGData ff t length viewData ac dir

/-! ## TCP connection: completion flip (`ReassemblyComplete`)

`gopacket.Flow` is modelled by its two stringified endpoints; `Reverse`
swaps them.  A stream reader is modelled by its client flag, its observed
network flow (`Network()`), and its collected fragments (`DataSlice()`).
The connection identity string is derived from the 5-tuple in
client-to-server direction; `reverseIdent` is not among the provided
sources, so it is modelled from the spec. -/

structure Flow where
  src : String
  dst : String
deriving Repr, DecidableEq

def Flow.Reverse (f : Flow) : Flow := ⟨f.dst, f.src⟩

/-- Modelled from the spec: the identity is "derived from its 5-tuple in the
client→server direction" and a flip "reverses the identity string", i.e.
swaps its two endpoint halves.  `reverseIdent` itself is not among the
provided sources. -/
structure Ident where
  a : String
  b : String
deriving Repr, DecidableEq

def reverseIdent (i : Ident) : Ident := ⟨i.b, i.a⟩

/-- A direction reader as seen by `ReassemblyComplete`: its client flag
(`SetClient`), its observed network flow (`Network()`), and its queued
fragments (`DataSlice()`). -/
structure ReaderState where
  isClient : Bool
  network : Flow
  data : List StreamData
deriving Repr, DecidableEq

/-- The connection state read and written by the flip logic of
`ReassemblyComplete`. -/
structure FlipConn where
  client : Option ReaderState
  server : Option ReaderState
  net : Flow
  transport : Flow
  ident : Ident
  firstPacket : Nat
deriving Repr, DecidableEq

/-- Embedding of the flip prologue of `tcpConnection.ReassemblyComplete`
(part_004 lines 365-403): when the triggering packet is strictly older than
the recorded first packet, record its timestamp and — when both readers
exist and the completing flow differs from the client's observed network
flow — flip the connection: retag the readers' client flags, swap them,
reverse the stored flows and the identity, and rewrite every queued
fragment's direction tag to match the new assignment. -/
def reassemblyCompleteFlip (t : FlipConn) (ts : Nat) (flow : Flow) : FlipConn :=
  if t.firstPacket ≠ ts ∧ ts < t.firstPacket then
    let t := { t with firstPacket := ts }
    match t.client, t.server with
    | some cl, some sv =>
        if cl.network ≠ flow then
          let cl := { cl with isClient := false }
          let sv := { sv with isClient := true }
          let newClient :=
            { sv with data := sv.data.map (fun d => { d with dir := TCPFlowDirection.clientToServer }) }
          let newServer :=
            { cl with data := cl.data.map (fun d => { d with dir := TCPFlowDirection.serverToClient }) }
          { t with client := some newClient,
                   server := some newServer,
                   transport := t.transport.Reverse,
                   net := t.net.Reverse,
                   ident := reverseIdent t.ident }
        else t
    | _, _ => t
  else t

/-! ## Packet ingress (`ReassemblePacket`)

The defragmenter and the assembler are library calls; the defragmenter's
outcome for the packet's IPv4 layer enters as an input, and the assembler
invocations appear in the outcome value.  Timestamps and durations are `Int`
so the flush cutoffs `ref − timeout` stay exact. -/

inductive DefragResult
  | err
  | pending
  | done (newLength : Nat)
deriving Repr, DecidableEq

/-- The inputs of `ReassemblePacket` for one packet: which layers gopacket
decoded, the original IPv4 length together with the defragmenter's outcome,
the raw data length, the TCP payload length, the capture timestamp, and
whether the packet value implements `gopacket.PacketBuilder`. -/
structure IngressPacket where
  hasTCP : Bool
  hasUDP : Bool
  ip4 : Option (Nat × DefragResult)
  dataLen : Nat
  tcpPayloadLen : Nat
  ts : Int
  isPacketBuilder : Bool
deriving Repr, DecidableEq

structure IngressConfig where
  noDefrag : Bool
  flushEvery : Nat
  closePendingTimeOut : Int
  closeInactiveTimeOut : Int
deriving Repr, DecidableEq

/-- What `ReassemblePacket` did with the packet.  `assembled flush` means
the segment reached `AssembleWithContext`; `flush` carries the
`FlushWithOptions` cutoffs `(T, TC)` when the periodic flush fired. -/
inductive IngressOutcome
  | fatal
  | handledUDP
  | ignored
  | dropped
  | assembled (flush : Option (Int × Int))
deriving Repr, DecidableEq

/-- Embedding of `ReassemblePacket` (part_004 lines 485-567) over the
running packet counter `count`: non-TCP packets go to the UDP handler or are
ignored; TCP packets bump the counter, pass through defragmentation (unless
disabled) with its early returns, reach the assembler, and every
`FlushEvery`-th packet triggers a flush with cutoffs derived from its
capture timestamp. -/
def reassemblePacket (cfg : IngressConfig) (count : Nat) (p : IngressPacket) :
    Nat × IngressOutcome :=
  if !p.hasTCP then
    if p.hasUDP then (count, IngressOutcome.handledUDP)
    else (count, IngressOutcome.ignored)
  else
    let count := count + 1
    let defragged : Option IngressOutcome :=
      if !cfg.noDefrag then
        match p.ip4 with
        | none => some IngressOutcome.dropped
        | some (_, DefragResult.err) => some IngressOutcome.fatal
        | some (_, DefragResult.pending) => some IngressOutcome.dropped
        | some (l, DefragResult.done newLen) =>
            if newLen ≠ l ∧ ¬p.isPacketBuilder then some IngressOutcome.fatal
            else none
      else none
    match defragged with
    | some outcome => (count, outcome)
    | none =>
        let doFlush := count % cfg.flushEvery == 0
        if doFlush then
          (count, IngressOutcome.assembled
            (some (p.ts - cfg.closePendingTimeOut, p.ts - cfg.closeInactiveTimeOut)))
        else
          (count, IngressOutcome.assembled none)

/-! ## HTTP encoder end-of-capture pass (`httpEncoder` post-processing)

The per-stream request and response maps become association-list-like lists
keyed by the stream; a parsed `http.Request` is modelled by the fields
`setRequest` reads, a parsed `http.Response` by the fields the encoder reads
plus its optional matched request.  Record emission (`PutProto` or the CSV
writer) is modelled by collecting the emitted `types.HTTP` records in
order. -/

/-- The fields of `net/http.Request` that `setRequest` reads (header lookups
already performed). -/
structure HTTPRequest where
  timestampHeader : String
  proto : String
  method : String
  host : String
  userAgent : String
  referer : String
  contentLength : Int
  url : String
  clientIPHeader : String
  serverIPHeader : String
deriving Repr, DecidableEq

/-- The fields of `net/http.Response` that the encoder reads, plus the
matched request reference (`res.Request`, `none` when unmatched). -/
structure HTTPResponse where
  contentLength : Int
  contentType : String
  statusCode : Int
  request : Option HTTPRequest
deriving Repr, DecidableEq

/-- `types.HTTP`, restricted to the fields the encoder populates.  A fresh
protobuf message has zero values everywhere. -/
structure HTTPRecord where
  timestamp : String
  proto : String
  method : String
  host : String
  userAgent : String
  referer : String
  reqContentLength : Int
  url : String
  srcIP : String
  dstIP : String
  resContentLength : Int
  contentType : String
  statusCode : Int
deriving Repr, DecidableEq

def emptyHTTPRecord : HTTPRecord :=
  { timestamp := "", proto := "", method := "", host := "", userAgent := "",
    referer := "", reqContentLength := 0, url := "", srcIP := "", dstIP := "",
    resContentLength := 0, contentType := "", statusCode := 0 }

/-- Embedding of `setRequest` (part_004 lines 1114-1125): copy the request
fields onto the record, escaping commas in user agent, referer and URL. -/
def setRequest (h : HTTPRecord) (req : HTTPRequest) : HTTPRecord :=
  { h with timestamp := req.timestampHeader,
           proto := req.proto,
           method := req.method,
           host := req.host,
           userAgent := req.userAgent.replace "," "(comma)",
           referer := req.referer.replace "," "(comma)",
           reqContentLength := req.contentLength,
           url := req.url.replace "," "(comma)",
           srcIP := req.clientIPHeader,
           dstIP := req.serverIPHeader }

/-- The response record the encoder builds before consulting `res.Request`. -/
def responseBase (res : HTTPResponse) : HTTPRecord :=
  { emptyHTTPRecord with resContentLength := res.contentLength,
                         contentType := res.contentType,
                         statusCode := res.statusCode }

/-- One stream's response pass of the end-of-capture handler (part_004
lines 990-1029): every response with a matched request is emitted as a
combined record; the rest are collected into the stream's new response
list. -/
def flushResponses : List HTTPResponse → List HTTPRecord × List HTTPResponse
  | [] => ([], [])
  | res :: rest =>
      let h := responseBase res
      let (recs, keep) := flushResponses rest
      match res.request with
      | some req => (setRequest h req :: recs, keep)
      | none => (recs, res :: keep)

/-- The leftover-request pass (part_004 lines 1052-1067): every non-nil
request still in the request map is emitted as a request-only record. -/
def flushRequests : List (Option HTTPRequest) → List HTTPRecord
  | [] => []
  | some req :: rest => setRequest emptyHTTPRecord req :: flushRequests rest
  | none :: rest => flushRequests rest

/-- Embedding of the end-of-capture drain of `httpEncoder` (part_004 lines
990-1067): run the response pass over every stream of the response map
(updating the map to the unmatched leftovers), then the request pass over
every stream of the request map.  The commented-out leftover-response pass
of the source is, faithfully, absent.  Returns the emitted records in order
and the final response map. -/
def httpEncoderFinal (resMap : List (String × List HTTPResponse))
    (reqMap : List (String × List (Option HTTPRequest))) :
    List HTTPRecord × List (String × List HTTPResponse) :=
  let resPass := resMap.map (fun e => (e.1, flushResponses e.2))
  let resRecords := (resPass.map (fun e => e.2.1)).flatten
  let resMapNew := resPass.map (fun e => (e.1, e.2.2))
  let reqRecords := (reqMap.map (fun e => flushRequests e.2)).flatten
  (resRecords ++ reqRecords, resMapNew)

/-! ## Association-list lemmas and the profile growth order -/

theorem lookupA_insertA_self {α : Type} (m : List (String × α)) (k : String) (v : α) :
    lookupA (insertA m k v) k = some v := by
  induction m with
  | nil => simp [insertA, lookupA]
  | cons kv rest ih =>
      obtain ⟨k2, v2⟩ := kv
      by_cases hk : k2 = k <;> simp [insertA, lookupA, hk, ih]

theorem lookupA_insertA_ne {α : Type} (m : List (String × α)) (k k2 : String) (v : α)
    (hne : k2 ≠ k) : lookupA (insertA m k v) k2 = lookupA m k2 := by
  induction m with
  | nil => simp [insertA, lookupA, Ne.symm hne]
  | cons kv rest ih =>
      obtain ⟨k3, v3⟩ := kv
      by_cases hk : k3 = k <;> simp [insertA, lookupA, hk, ih, Ne.symm hne]

theorem lookupA_insertA_isSome {α : Type} (m : List (String × α)) (k k2 : String) (v : α)
    (h : (lookupA m k2).isSome = true) :
    (lookupA (insertA m k v) k2).isSome = true := by
  by_cases hk : k2 = k
  · subst hk
    simp [lookupA_insertA_self]
  · rw [lookupA_insertA_ne m k k2 v hk]
    exact h

theorem portIncrement_mono (d : Nat) (kind : TransportKind) (m : List (String × Port))
    (key k2 : String) (pt : Port) (h : lookupA m k2 = some pt) :
    ∃ pt2, lookupA (portIncrement d kind m key) k2 = some pt2
      ∧ pt.numTotal ≤ pt2.numTotal ∧ pt.numTCP ≤ pt2.numTCP ∧ pt.numUDP ≤ pt2.numUDP := by
  unfold portIncrement
  by_cases hk : k2 = key
  · subst hk
    rw [h]
    refine ⟨_, lookupA_insertA_self m k2 _, ?_, ?_, ?_⟩ <;> cases kind <;> simp <;> omega
  · cases hm : lookupA m key <;>
      exact ⟨pt, by rw [lookupA_insertA_ne m key k2 _ hk]; exact h, le_refl _, le_refl _, le_refl _⟩

theorem applyDPI_preserves (l : List (String × Protocol)) (ip : IPProfile) :
    (applyDPI l ip).numPackets = ip.numPackets
    ∧ (applyDPI l ip).bytes = ip.bytes
    ∧ (applyDPI l ip).srcPorts = ip.srcPorts
    ∧ (applyDPI l ip).dstPorts = ip.dstPorts
    ∧ (applyDPI l ip).snis = ip.snis
    ∧ (applyDPI l ip).ja3 = ip.ja3 := by
  induction l generalizing ip with
  | nil => simp [applyDPI]
  | cons pr rest ih =>
      simp only [applyDPI]
      cases hm : lookupA ip.protocols pr.1 <;> simp [ih]

theorem applyDPI_protocols_isSome (l : List (String × Protocol)) (ip : IPProfile)
    (k : String) (h : (lookupA ip.protocols k).isSome = true) :
    (lookupA (applyDPI l ip).protocols k).isSome = true := by
  induction l generalizing ip with
  | nil => simpa [applyDPI] using h
  | cons pr rest ih =>
      simp only [applyDPI]
      cases hm : lookupA ip.protocols pr.1 <;>
        exact ih _ (by simpa using lookupA_insertA_isSome ip.protocols pr.1 k _ h)

/-- The growth order of the claim: counters no smaller, and no entry removed
from the port, SNI, JA3 or DPI-protocol maps. -/
def ProfileLE (p q : IPProfile) : Prop :=
  p.numPackets ≤ q.numPackets
  ∧ p.bytes ≤ q.bytes
  ∧ (∀ k pt, lookupA p.srcPorts k = some pt →
      ∃ pt2, lookupA q.srcPorts k = some pt2
        ∧ pt.numTotal ≤ pt2.numTotal ∧ pt.numTCP ≤ pt2.numTCP ∧ pt.numUDP ≤ pt2.numUDP)
  ∧ (∀ k pt, lookupA p.dstPorts k = some pt →
      ∃ pt2, lookupA q.dstPorts k = some pt2
        ∧ pt.numTotal ≤ pt2.numTotal ∧ pt.numTCP ≤ pt2.numTCP ∧ pt.numUDP ≤ pt2.numUDP)
  ∧ (∀ k, (lookupA p.snis k).isSome = true → (lookupA q.snis k).isSome = true)
  ∧ (∀ k, (lookupA p.ja3 k).isSome = true → (lookupA q.ja3 k).isSome = true)
  ∧ (∀ k, (lookupA p.protocols k).isSome = true → (lookupA q.protocols k).isSome = true)

theorem ProfileLE.refl (p : IPProfile) : ProfileLE p p := by
  refine ⟨le_refl _, le_refl _, ?_, ?_, ?_, ?_, ?_⟩ <;> intros <;>
    first
    | exact ⟨_, ‹_›, le_refl _, le_refl _, le_refl _⟩
    | assumption

theorem ProfileLE.trans {p q r : IPProfile} (h1 : ProfileLE p q) (h2 : ProfileLE q r) :
    ProfileLE p r := by
  obtain ⟨a1, b1, c1, d1, e1, f1, g1⟩ := h1
  obtain ⟨a2, b2, c2, d2, e2, f2, g2⟩ := h2
  refine ⟨le_trans a1 a2, le_trans b1 b2, ?_, ?_, ?_, ?_, ?_⟩
  · intro k pt h
    obtain ⟨pt2, h2s, hx, hy, hz⟩ := c1 k pt h
    obtain ⟨pt3, h3s, hx2, hy2, hz2⟩ := c2 k pt2 h2s
    exact ⟨pt3, h3s, le_trans hx hx2, le_trans hy hy2, le_trans hz hz2⟩
  · intro k pt h
    obtain ⟨pt2, h2s, hx, hy, hz⟩ := d1 k pt h
    obtain ⟨pt3, h3s, hx2, hy2, hz2⟩ := d2 k pt2 h2s
    exact ⟨pt3, h3s, le_trans hx hx2, le_trans hy hy2, le_trans hz hz2⟩
  · exact fun k h => e2 k (e1 k h)
  · exact fun k h => f2 k (f1 k h)
  · exact fun k h => g2 k (g1 k h)

theorem counterBump_le (i : PacketInfo) (ip : IPProfile) :
    ProfileLE ip { ip with numPackets := ip.numPackets + 1,
                           timestampLast := i.timestamp,
                           bytes := ip.bytes + i.dataLen } := by
  refine ⟨by simp, by simp, ?_, ?_, ?_, ?_, ?_⟩ <;> intros <;>
    first
    | exact ⟨_, ‹_›, le_refl _, le_refl _, le_refl _⟩
    | assumption

theorem updatePorts_le (d : Nat) (tl : Option TransportInfo) (ip : IPProfile) :
    ProfileLE ip (updatePorts d tl ip) := by
  cases tl with
  | none => exact ProfileLE.refl ip
  | some tl =>
      refine ⟨by simp [updatePorts], by simp [updatePorts], ?_, ?_, ?_, ?_, ?_⟩
      · intro k pt h
        simpa [updatePorts] using portIncrement_mono d tl.kind ip.srcPorts tl.srcPort k pt h
      · intro k pt h
        simpa [updatePorts] using portIncrement_mono d tl.kind ip.dstPorts tl.dstPort k pt h
      · intro k h
        simpa [updatePorts] using h
      · intro k h
        simpa [updatePorts] using h
      · intro k h
        simpa [updatePorts] using h

theorem updateSNI_le (sni : Option String) (ip : IPProfile) :
    ProfileLE ip (updateSNI sni ip) := by
  cases sni with
  | none => exact ProfileLE.refl ip
  | some s =>
      by_cases hs : s = ""
      · simp [updateSNI, hs]
        exact ProfileLE.refl ip
      · refine ⟨by simp [updateSNI, hs], by simp [updateSNI, hs], ?_, ?_, ?_, ?_, ?_⟩ <;>
          intros <;>
          simp only [updateSNI, hs] <;>
          first
          | exact ⟨_, by simpa [updateSNI, hs] using ‹_›, le_refl _, le_refl _, le_refl _⟩
          | (simp [hs]; exact lookupA_insertA_isSome ip.snis s _ _ (by simpa [updateSNI, hs] using ‹_›))
          | simpa [updateSNI, hs] using ‹_›

theorem updateJa3_le (res : Resolvers) (hash : String) (ip : IPProfile) :
    ProfileLE ip (updateJa3 res hash ip) := by
  by_cases hh : hash = ""
  · simp [updateJa3, hh]
    exact ProfileLE.refl ip
  · unfold updateJa3
    cases hm : lookupA ip.ja3 hash
    · simp only [hh, hm, ite_true, ite_false, if_neg, if_pos, ne_eq, not_false_eq_true]
      refine ⟨le_refl _, le_refl _, ?_, ?_, ?_, ?_, ?_⟩
      · intro k pt h
        exact ⟨pt, h, le_refl _, le_refl _, le_refl _⟩
      · intro k pt h
        exact ⟨pt, h, le_refl _, le_refl _, le_refl _⟩
      · intro k h
        exact h
      · intro k h
        exact lookupA_insertA_isSome ip.ja3 hash k _ h
      · intro k h
        exact h
    · simp [hh, hm]
      exact ProfileLE.refl ip

theorem applyDPI_le (l : List (String × Protocol)) (ip : IPProfile) :
    ProfileLE ip (applyDPI l ip) := by
  obtain ⟨h1, h2, h3, h4, h5, h6⟩ := applyDPI_preserves l ip
  refine ⟨le_of_eq h1.symm, le_of_eq h2.symm, ?_, ?_, ?_, ?_, ?_⟩
  · intro k pt h
    exact ⟨pt, by rw [h3]; exact h, le_refl _, le_refl _, le_refl _⟩
  · intro k pt h
    exact ⟨pt, by rw [h4]; exact h, le_refl _, le_refl _, le_refl _⟩
  · intro k h
    rw [h5]
    exact h
  · intro k h
    rw [h6]
    exact h
  · intro k h
    exact applyDPI_protocols_isSome l ip k h

theorem updateProfile_le (res : Resolvers) (i : PacketInfo) (ip : IPProfile) :
    ProfileLE ip (updateProfile res i ip) := by
  unfold updateProfile
  exact ProfileLE.trans (counterBump_le i ip)
    (ProfileLE.trans (updatePorts_le i.dataLen i.transport _)
      (ProfileLE.trans (updateSNI_le i.sni _)
        (ProfileLE.trans (updateJa3_le res i.ja3Hash _) (applyDPI_le i.dpi _))))

/-! ## Spec-side descriptions used by the HTTP end-of-capture claim -/

/-- Spec-side: the combined records, one per response whose request matched. -/
def combinedRecords (resMap : List (String × List HTTPResponse)) : List HTTPRecord :=
  (resMap.map (fun e =>
    e.2.filterMap (fun r => r.request.map (fun req => setRequest (responseBase r) req)))).flatten

/-- Spec-side: the request-only records, one per non-nil leftover request. -/
def requestOnlyRecords (reqMap : List (String × List (Option HTTPRequest))) : List HTTPRecord :=
  (reqMap.map (fun e => e.2.filterMap (fun o => o.map (setRequest emptyHTTPRecord)))).flatten

/-- Spec-side: the response map retaining exactly the unmatched responses. -/
def leftoverResponses (resMap : List (String × List HTTPResponse)) :
    List (String × List HTTPResponse) :=
  resMap.map (fun e => (e.1, e.2.filter (fun r => r.request.isNone)))

theorem flushResponses_eq (arr : List HTTPResponse) :
    flushResponses arr =
      (arr.filterMap (fun r => r.request.map (fun req => setRequest (responseBase r) req)),
       arr.filter (fun r => r.request.isNone)) := by
  induction arr with
  | nil => rfl
  | cons res rest ih =>
      cases h : res.request <;> simp [flushResponses, ih, h, List.filterMap_cons, Option.isNone]

theorem flushRequests_eq (l : List (Option HTTPRequest)) :
    flushRequests l = l.filterMap (fun o => o.map (setRequest emptyHTTPRecord)) := by
  induction l with
  | nil => rfl
  | cons o rest ih => cases o <;> simp [flushRequests, ih]

/-! ## Claim theorems -/

/-- C1 (counterexample): a single unmatched response in the response map at
end-of-capture produces no record at all — it is retained in the map rather
than flushed as a response-only record, refuting the claim as stated. -/
theorem c1_unmatched_response_not_flushed :
    httpEncoderFinal [("192.168.0.1:443 : 192.168.0.2:53473",
        [{ contentLength := 42, contentType := "text/html", statusCode := 200,
           request := none }])] []
      = ([], [("192.168.0.1:443 : 192.168.0.2:53473",
        [{ contentLength := 42, contentType := "text/html", statusCode := 200,
           request := none }])]) := by
  rfl

/-- C1 (amended): at end-of-capture, every response whose request is matched
is emitted as one combined record and every unmatched non-nil request is
flushed as a request-only record, but unmatched responses are *retained* in
the response map and never emitted. -/
theorem c1_end_of_capture_drain
    (resMap : List (String × List HTTPResponse))
    (reqMap : List (String × List (Option HTTPRequest))) :
    httpEncoderFinal resMap reqMap
      = (combinedRecords resMap ++ requestOnlyRecords reqMap, leftoverResponses resMap) := by
  simp only [httpEncoderFinal, combinedRecords, requestOnlyRecords, leftoverResponses,
    flushResponses_eq, flushRequests_eq, List.map_map]
  rfl

/-- C8 (counterexample): in CSV mode the channel-mode guard is never
reached, so `NewWriter` with `writeChan = true` and `buffer = true`
constructs a writer instead of panicking, refuting the claim as stated. -/
theorem c8_csv_channel_buffer_no_panic :
    NewWriter 1024 true false true true 5
      = Except.ok { fileSuffix := some ".csv", bWriterSize := some 5,
                    hasGWriter := false, hasDWriter := false,
                    hasCWriter := false, hasCSVWriter := true } := by
  rfl

/-- C8 (amended): in non-CSV mode, `NewWriter` with channel mode together
with buffering or compression fails as a programmer error, and channel mode
with both flags off constructs successfully (in any mode). -/
theorem c8_channel_mode_guard (dbs mbs : Int) (buffer compress csv : Bool) :
    (NewWriter dbs buffer compress false true mbs).isOk = (!buffer && !compress)
    ∧ (NewWriter dbs false false csv true mbs).isOk = true := by
  cases buffer <;> cases compress <;> cases csv <;>
    simp [NewWriter, Except.isOk, Except.toBool]

/-- C9: `memBufferSize` affects only CSV mode — the CSV buffered layer is
sized `memBufferSize` (defaulted to `DefaultBufferSize` when nonpositive),
the non-CSV buffered layer is always sized `DefaultBufferSize`, and the
whole non-CSV construction is independent of `memBufferSize`. -/
theorem c9_membuffersize_only_csv (dbs mbs mbs2 : Int) (buffer compress wc : Bool) :
    (NewWriter dbs true compress true wc mbs).map WriterLayers.bWriterSize
      = Except.ok (some (if mbs ≤ 0 then dbs else mbs))
    ∧ (NewWriter dbs true compress false false mbs).map WriterLayers.bWriterSize
      = Except.ok (some dbs)
    ∧ NewWriter dbs buffer compress false wc mbs = NewWriter dbs buffer compress false wc mbs2 := by
  refine ⟨?_, ?_, ?_⟩
  · cases compress <;> simp [NewWriter, Except.map]
  · cases compress <;> simp [NewWriter, Except.map]
  · cases buffer <;> cases compress <;> cases wc <;> simp [NewWriter]

/-- The number of bytes sitting in the file once `Close` has pushed the
gzip footer and the buffered bytes down. -/
def closedSize (w : WriterCloseState) : Nat :=
  w.fileBytes + (if w.compress && !w.gzipClosed then w.gzipFooterLen else 0)
    + (if w.buffer then w.bufPending else 0)

/-- The writer state `Close` leaves behind when the file was still open. -/
def afterClose (w : WriterCloseState) : WriterCloseState :=
  { w with gzipClosed := w.gzipClosed || w.compress,
           gzipFooterLen := if w.compress && !w.gzipClosed then 0 else w.gzipFooterLen,
           bufPending := if w.buffer then 0 else w.bufPending,
           fileBytes := closedSize w,
           fileClosed := true }

theorem writerClose_ok_of_open (w : WriterCloseState) (h : w.fileClosed = false) :
    writerClose w = Except.ok ((w.name, closedSize w), afterClose w) := by
  obtain ⟨comp, buf, gzc, gfl, bp, fc, fb, nm⟩ := w
  simp only at h
  subst h
  cases comp <;> cases buf <;> cases gzc <;>
    by_cases hbp : bp = 0 <;> by_cases hg : gfl = 0 <;>
    simp_all [writerClose, closeGzipLayer, flushBufferedLayer, closeFile,
      closedSize, afterClose] <;>
    omega

theorem writerClose_closed_layers (w : WriterCloseState)
    (hg : w.compress = true → w.gzipClosed = true)
    (hb : w.buffer = true → w.bufPending = 0) :
    writerClose w = Except.ok ((w.name, w.fileBytes), { w with fileClosed := true }) := by
  obtain ⟨comp, buf, gzc, gfl, bp, fc, fb, nm⟩ := w
  simp only at hg hb
  cases comp <;> cases buf <;>
    simp_all [writerClose, closeGzipLayer, flushBufferedLayer, closeFile]

/-- C7: closing the writer twice is safe — given the file is still open (the
writer has not been closed before), the first `Close` succeeds, and a second
`Close` on the resulting state also succeeds and returns the same
`(name, size)` pair. -/
theorem c7_close_idempotent (w : WriterCloseState) (h : w.fileClosed = false) :
    ∃ r w1 w2, writerClose w = Except.ok (r, w1) ∧ writerClose w1 = Except.ok (r, w2) := by
  refine ⟨(w.name, closedSize w), afterClose w, { afterClose w with fileClosed := true },
    writerClose_ok_of_open w h, ?_⟩
  have hg : (afterClose w).compress = true → (afterClose w).gzipClosed = true := by
    intro hc
    simp only [afterClose] at hc ⊢
    simp [hc]
  have hb : (afterClose w).buffer = true → (afterClose w).bufPending = 0 := by
    intro hc
    simp only [afterClose] at hc ⊢
    simp [hc]
  have h2 := writerClose_closed_layers (afterClose w) hg hb
  simpa [afterClose] using h2

/-- C7 witness: the idempotence theorem applied to a concrete compressed,
buffered writer state with pending bytes in both layers. -/
theorem c7_close_idempotent_witness :
    ∃ r w1 w2,
      writerClose { compress := true, buffer := true, gzipClosed := false,
                    gzipFooterLen := 8, bufPending := 5, fileClosed := false,
                    fileBytes := 100, name := "HTTP" } = Except.ok (r, w1)
      ∧ writerClose w1 = Except.ok (r, w2) :=
  c7_close_idempotent _ rfl

/-- C2: stage-by-stage rejection accounting of `tcpConnection.Accept`: an
FSM rejection bumps `rejectFsm`, bumps `rejectConnFsm` exactly on the
connection's first FSM rejection (recorded in the `fsmerr` flag), and drops
the segment unless `IgnoreFSMerr`; a reached option-checker rejection bumps
`rejectOpt` and drops the segment unless `NoOptCheck`; with `Checksum`
enabled, a reached checksum that fails to compute or is nonzero bumps
`rejectOpt` and drops the segment. -/
theorem c2_accept_stage_rejections
    (cfg : AcceptConfig) (fsmerr : Bool) (stats : RejectStats)
    (fsmOk optOk : Bool) (csum : Option Nat)
    (acc fsmerrOut : Bool) (statsOut : RejectStats)
    (h : tcpAccept cfg fsmerr stats fsmOk optOk csum = (acc, fsmerrOut, statsOut)) :
    fsmerrOut = (fsmerr || !fsmOk)
    ∧ statsOut.rejectFsm = stats.rejectFsm + (if fsmOk then 0 else 1)
    ∧ statsOut.rejectConnFsm
        = stats.rejectConnFsm + (if fsmOk = false ∧ fsmerr = false then 1 else 0)
    ∧ (fsmOk = false → cfg.ignoreFSMerr = false →
        acc = false ∧ statsOut.rejectOpt = stats.rejectOpt)
    ∧ (optOk = false → (fsmOk = true ∨ cfg.ignoreFSMerr = true) →
        stats.rejectOpt + 1 ≤ statsOut.rejectOpt
        ∧ (cfg.noOptCheck = false → acc = false ∧ statsOut.rejectOpt = stats.rejectOpt + 1))
    ∧ (cfg.checksum = true → (fsmOk = true ∨ cfg.ignoreFSMerr = true) →
        (optOk = true ∨ cfg.noOptCheck = true) →
        (csum = none ∨ ∃ v, csum = some v ∧ v ≠ 0) →
        acc = false ∧ stats.rejectOpt + 1 ≤ statsOut.rejectOpt) := by
  obtain ⟨ig, noc, chk⟩ := cfg
  cases fsmOk <;> cases optOk <;> cases fsmerr <;> cases ig <;> cases noc <;> cases chk <;>
    rcases csum with _ | v <;>
    simp only [tcpAccept] at h <;>
    simp at h <;>
    (try obtain ⟨h1, h2, h3⟩ := h) <;>
    (try subst h1) <;> (try subst h2) <;> (try subst h3) <;>
    simp_all <;>
    (try (by_cases hv : v = 0)) <;>
    simp_all

/-- C2 witness: the theorem applied to a concrete first-time FSM rejection
with all checking flags strict — the segment is dropped and `rejectOpt` is
untouched. -/
theorem c2_accept_stage_rejections_witness :
    false = false
    ∧ ({ rejectFsm := 3, rejectConnFsm := 1, rejectOpt := 7 } : RejectStats).rejectOpt
        = ({ rejectFsm := 2, rejectConnFsm := 0, rejectOpt := 7 } : RejectStats).rejectOpt :=
  (c2_accept_stage_rejections
    { ignoreFSMerr := false, noOptCheck := false, checksum := false }
    false { rejectFsm := 2, rejectConnFsm := 0, rejectOpt := 7 } false true none
    false true { rejectFsm := 3, rejectConnFsm := 1, rejectOpt := 7 }
    (by decide)).2.2.2.1 rfl rfl

/-- Spec-side delivery condition of C3: the skip value is acceptable
(`skip == 0`, or `skip == -1` under `AllowMissingInit`), the view is
nonempty, the connection is not HTTPS-marked, and the connection's protocol
is not disabled. -/
def sgDelivers (allowMissingInit : Bool) (ff : FactoryFlags) (t : SGConn)
    (skip : Int) (length : Nat) : Bool :=
  (skip == 0 || (skip == -1 && allowMissingInit))
  && !(length == 0)
  && !t.isHTTPS
  && !(t.isSSH && !ff.decodeSSH)
  && !(t.isHTTP && !ff.decodeHTTP)
  && !(t.isPOP3 && !ff.decodePOP3)

/-- C3: `ReassembledSG` enqueues the view's bytes — tagged with direction
and assembler context — on the client channel for client-to-server data and
on the server channel otherwise, if and only if the delivery condition
holds; in every other case both channels (and the whole connection state)
are left untouched. -/
theorem c3_delivery_iff (ami : Bool) (ff : FactoryFlags) (t : SGConn) (skip : Int)
    (length : Nat) (viewData : List Nat) (ac : AsmContext) (dir : TCPFlowDirection) :
    (sgDelivers ami ff t skip length = true →
        (dir = TCPFlowDirection.clientToServer →
          reassembledSG ami ff t skip length viewData ac dir
            = { t with clientQueue := t.clientQueue ++ [⟨viewData, ac, dir⟩] })
      ∧ (dir = TCPFlowDirection.serverToClient →
          reassembledSG ami ff t skip length viewData ac dir
            = { t with serverQueue := t.serverQueue ++ [⟨viewData, ac, dir⟩] }))
    ∧ (sgDelivers ami ff t skip length = false →
        reassembledSG ami ff t skip length viewData ac dir = t) := by
  unfold reassembledSG processSGData feedData sgDelivers
  cases dir <;> split_ifs <;> (try simp_all)
  all_goals
    intro hcon
    exfalso
    rcases hcon (by omega)
      (by cases hs : t.isSSH <;> simp_all)
      (by cases hs : t.isHTTP <;> simp_all) with ⟨hp, hd⟩
    simp_all

/-- C3 witness: an initial-gap delivery (`skip = -1` with
`AllowMissingInit`) of three bytes on the client channel of a fresh raw-TCP
connection. -/
theorem c3_delivery_iff_witness :
    reassembledSG true { decodeSSH := true, decodeHTTP := true, decodePOP3 := true }
        { isHTTP := false, isHTTPS := false, isPOP3 := false, isSSH := false,
          clientQueue := [], serverQueue := [] }
        (-1) 3 [104, 105, 33] { timestamp := 5 } TCPFlowDirection.clientToServer
      = { isHTTP := false, isHTTPS := false, isPOP3 := false, isSSH := false,
          clientQueue := [{ raw := [104, 105, 33], ac := { timestamp := 5 },
                            dir := TCPFlowDirection.clientToServer }],
          serverQueue := [] } :=
  ((c3_delivery_iff true { decodeSSH := true, decodeHTTP := true, decodePOP3 := true }
      { isHTTP := false, isHTTPS := false, isPOP3 := false, isSSH := false,
        clientQueue := [], serverQueue := [] }
      (-1) 3 [104, 105, 33] { timestamp := 5 }
      TCPFlowDirection.clientToServer).1 (by decide)).1 rfl

/-- C4: `ReassemblyComplete` flips the connection — swapping the readers
with their client flags retagged, reversing the stored flows and the
identity, and rewriting every queued fragment's direction tag to the new
assignment — if and only if the triggering packet's capture timestamp
strictly precedes the recorded first-packet time and the completing flow
differs from the current client's observed network flow; otherwise readers,
flows and identity are untouched, and on timestamp equality the connection
state is entirely unchanged. -/
theorem c4_flip_iff (t : FlipConn) (ts : Nat) (flow : Flow) (cl sv : ReaderState)
    (hc : t.client = some cl) (hs : t.server = some sv) :
    ((ts < t.firstPacket ∧ cl.network ≠ flow) →
        (reassemblyCompleteFlip t ts flow).client
            = some (ReaderState.mk true sv.network
                (sv.data.map (fun d => { d with dir := TCPFlowDirection.clientToServer })))
        ∧ (reassemblyCompleteFlip t ts flow).server
            = some (ReaderState.mk false cl.network
                (cl.data.map (fun d => { d with dir := TCPFlowDirection.serverToClient })))
        ∧ (reassemblyCompleteFlip t ts flow).net = t.net.Reverse
        ∧ (reassemblyCompleteFlip t ts flow).transport = t.transport.Reverse
        ∧ (reassemblyCompleteFlip t ts flow).ident = reverseIdent t.ident
        ∧ (reassemblyCompleteFlip t ts flow).firstPacket = ts
        ∧ (∀ rd, (reassemblyCompleteFlip t ts flow).client = some rd →
            ∀ d ∈ rd.data, d.dir = TCPFlowDirection.clientToServer)
        ∧ (∀ rd, (reassemblyCompleteFlip t ts flow).server = some rd →
            ∀ d ∈ rd.data, d.dir = TCPFlowDirection.serverToClient))
    ∧ (¬(ts < t.firstPacket ∧ cl.network ≠ flow) →
        (reassemblyCompleteFlip t ts flow).client = t.client
        ∧ (reassemblyCompleteFlip t ts flow).server = t.server
        ∧ (reassemblyCompleteFlip t ts flow).net = t.net
        ∧ (reassemblyCompleteFlip t ts flow).transport = t.transport
        ∧ (reassemblyCompleteFlip t ts flow).ident = t.ident)
    ∧ (ts = t.firstPacket → reassemblyCompleteFlip t ts flow = t) := by
  obtain ⟨oc, os, nt, tr, idn, fp⟩ := t
  simp only at hc hs
  subst hc
  subst hs
  dsimp only
  refine ⟨?_, ?_, ?_⟩
  · rintro ⟨h1, h2⟩
    have hne : fp ≠ ts := by omega
    have hred : reassemblyCompleteFlip ⟨some cl, some sv, nt, tr, idn, fp⟩ ts flow
        = ⟨some (ReaderState.mk true sv.network
              (sv.data.map (fun d => { d with dir := TCPFlowDirection.clientToServer }))),
           some (ReaderState.mk false cl.network
              (cl.data.map (fun d => { d with dir := TCPFlowDirection.serverToClient }))),
           nt.Reverse, tr.Reverse, reverseIdent idn, ts⟩ := by
      simp [reassemblyCompleteFlip, hne, h1, h2]
    rw [hred]
    refine ⟨rfl, rfl, rfl, rfl, rfl, rfl, ?_, ?_⟩
    · rintro rd hr d hd
      injection hr with hr
      subst hr
      rcases List.mem_map.1 hd with ⟨a, _, rfl⟩
      rfl
    · rintro rd hr d hd
      injection hr with hr
      subst hr
      rcases List.mem_map.1 hd with ⟨a, _, rfl⟩
      rfl
  · intro hno
    by_cases h1 : ts < fp
    · have h2 : cl.network = flow := by
        by_contra hcon
        exact hno ⟨h1, hcon⟩
      have hne : fp ≠ ts := by omega
      simp [reassemblyCompleteFlip, hne, h1, h2]
    · have hcond : ¬(fp ≠ ts ∧ ts < fp) := by omega
      simp [reassemblyCompleteFlip, hcond]
  · intro heq
    subst heq
    simp [reassemblyCompleteFlip]


/-- C4 witness: a data-before-SYN completion whose flow differs from the
client's observed network flow reverses the identity string. -/
theorem c4_flip_iff_witness :
    (reassemblyCompleteFlip
        { client := some { isClient := true, network := { src := "192.168.1.2", dst := "10.0.0.1" }, data := [] },
          server := some { isClient := false, network := { src := "10.0.0.1", dst := "192.168.1.2" }, data := [] },
          net := { src := "192.168.1.2", dst := "10.0.0.1" },
          transport := { src := "49152", dst := "80" },
          ident := { a := "192.168.1.2:49152", b := "10.0.0.1:80" },
          firstPacket := 10 }
        5 { src := "10.0.0.1", dst := "192.168.1.2" }).ident
      = reverseIdent { a := "192.168.1.2:49152", b := "10.0.0.1:80" } :=
  ((c4_flip_iff
      { client := some { isClient := true, network := { src := "192.168.1.2", dst := "10.0.0.1" }, data := [] },
        server := some { isClient := false, network := { src := "10.0.0.1", dst := "192.168.1.2" }, data := [] },
        net := { src := "192.168.1.2", dst := "10.0.0.1" },
        transport := { src := "49152", dst := "80" },
        ident := { a := "192.168.1.2:49152", b := "10.0.0.1:80" },
        firstPacket := 10 }
      5 { src := "10.0.0.1", dst := "192.168.1.2" }
      { isClient := true, network := { src := "192.168.1.2", dst := "10.0.0.1" }, data := [] }
      { isClient := false, network := { src := "10.0.0.1", dst := "192.168.1.2" }, data := [] }
      rfl rfl).1 (by refine ⟨by decide, by decide⟩)).2.2.2.2.1

/-- C5 (counterexample): a TCP packet whose IPv4 layer is still waiting for
more fragments bumps the running packet count to a multiple of `FlushEvery`
(here 1 % 1 = 0) yet returns before the assembler, so no flush is invoked —
refuting the claim as stated for packets that do not reach assembly. -/
theorem c5_fragment_skips_flush :
    reassemblePacket
        { noDefrag := false, flushEvery := 1,
          closePendingTimeOut := 7, closeInactiveTimeOut := 9 } 0
        { hasTCP := true, hasUDP := false, ip4 := some (1500, DefragResult.pending),
          dataLen := 60, tcpPayloadLen := 0, ts := 100, isPacketBuilder := true }
      = (1, IngressOutcome.dropped)
    ∧ (1 : Nat) % 1 = 0 :=
  ⟨rfl, rfl⟩

/-- C5 (amended): for every packet that reaches the assembler, the packet
count is incremented by one, and the flush is invoked — with exactly the
cutoffs `T = ref − ClosePendingTimeOut` and `TC = ref − CloseInactiveTimeOut`
for the packet's capture timestamp `ref` — precisely when the incremented
count is a multiple of `FlushEvery`; packets that return before assembly
(non-TCP, missing IPv4 layer, pending fragments, defragmentation failures)
never flush. -/
theorem c5_flush_cutoffs (cfg : IngressConfig) (count : Nat) (p : IngressPacket)
    (count2 : Nat) (f : Option (Int × Int))
    (hfe : 0 < cfg.flushEvery)
    (h : reassemblePacket cfg count p = (count2, IngressOutcome.assembled f)) :
    count2 = count + 1
    ∧ (count2 % cfg.flushEvery = 0 →
        f = some (p.ts - cfg.closePendingTimeOut, p.ts - cfg.closeInactiveTimeOut))
    ∧ (count2 % cfg.flushEvery ≠ 0 → f = none) := by
  obtain ⟨nd, fe, cp, ci⟩ := cfg
  obtain ⟨htcp, hudp, ip4, dl, tpl, ts, ipb⟩ := p
  simp only at hfe ⊢
  cases htcp <;> cases hudp <;> cases nd <;>
    rcases ip4 with _ | ⟨l, dr⟩ <;>
    (try cases dr) <;>
    cases ipb <;>
    simp [reassemblePacket] at h <;>
    (try split at h) <;>
    simp_all <;>
    by_cases hm : (count + 1) % fe = 0 <;>
    simp_all

/-- C5 witness: the amended theorem applied to a non-defragmented TCP
packet at timestamp 100 whose incremented count 2 is a multiple of
`FlushEvery = 2`, yielding the cutoffs `(100 − 7, 100 − 9)`. -/
theorem c5_flush_cutoffs_witness :
    (2 : Nat) = 1 + 1
    ∧ ((2 : Nat) % 2 = 0 →
        (some (93, 91) : Option (Int × Int)) = some ((100 : Int) - 7, (100 : Int) - 9))
    ∧ ((2 : Nat) % 2 ≠ 0 → (some (93, 91) : Option (Int × Int)) = none) :=
  c5_flush_cutoffs
    { noDefrag := true, flushEvery := 2, closePendingTimeOut := 7, closeInactiveTimeOut := 9 }
    1
    { hasTCP := true, hasUDP := false, ip4 := none, dataLen := 60,
      tcpPayloadLen := 20, ts := 100, isPacketBuilder := true }
    2 (some (93, 91)) (by decide) (by decide)

/-- C6: observing a packet for a source IP whose profile already exists
updates that profile in place and the result dominates the old profile in
the growth order: packet counter, byte counter and every per-port counter
are no smaller, no entry disappears from the src-port, dst-port, SNI, JA3
or DPI-protocol maps, and no registry entry is evicted. -/
theorem c6_profile_monotone (res : Resolvers) (reg : List (String × IPProfile))
    (ipAddr : String) (i : PacketInfo) (p : IPProfile)
    (hlen : ipAddr.length ≠ 0) (h : lookupA reg ipAddr = some p) :
    getIPProfile res reg ipAddr i
      = (some (updateProfile res i p), insertA reg ipAddr (updateProfile res i p))
    ∧ ProfileLE p (updateProfile res i p)
    ∧ (∀ k, (lookupA reg k).isSome = true →
        (lookupA (insertA reg ipAddr (updateProfile res i p)) k).isSome = true) := by
  refine ⟨?_, updateProfile_le res i p, ?_⟩
  · simp [getIPProfile, hlen, h]
  · intro k hk
    exact lookupA_insertA_isSome reg ipAddr k _ hk

/-- Concrete existing profile used by the C6 witness. -/
def c6Profile : IPProfile :=
  { addr := "10.0.0.9", numPackets := 4, bytes := 600, timestampFirst := 1,
    timestampLast := 2,
    srcPorts := [("443", { numTotal := 500, numTCP := 4, numUDP := 0 })],
    dstPorts := [("49152", { numTotal := 500, numTCP := 4, numUDP := 0 })],
    snis := [("example.com", 1)], ja3 := [("abc", "desc")],
    protocols := [("TLS", { packets := 3, category := "encrypted" })],
    dnsNames := [], geolocation := "" }

/-- Concrete packet observation used by the C6 witness. -/
def c6Packet : PacketInfo :=
  { dataLen := 100, timestamp := 5,
    transport := some { srcPort := "443", dstPort := "49152", kind := TransportKind.tcp },
    sni := some "example.com", ja3Hash := "abc",
    dpi := [("TLS", { packets := 1, category := "encrypted" })] }

/-- Concrete resolver results used by the C6 witness. -/
def c6Resolvers : Resolvers :=
  { lookupJa3 := fun _ => "lookup", lookupGeo := fun _ => "geo",
    lookupDNSLocal := fun _ => "", lookupDNSNames := fun _ => [], localDNS := true }

/-- C6 witness: the monotonicity theorem applied to a concrete registry
holding one profile for source IP 10.0.0.9. -/
theorem c6_profile_monotone_witness :
    ProfileLE c6Profile (updateProfile c6Resolvers c6Packet c6Profile) :=
  (c6_profile_monotone c6Resolvers [("10.0.0.9", c6Profile)] "10.0.0.9" c6Packet c6Profile
    (by decide) (by simp [lookupA])).2.1

/-- C10: observing a packet for an empty source-IP string returns `nil` and
leaves the profile registry completely unchanged. -/
theorem c10_empty_ip_noop (res : Resolvers) (reg : List (String × IPProfile))
    (i : PacketInfo) : getIPProfile res reg "" i = (none, reg) := by
  rfl

end Netcap
